import Mathlib

/-!
Verification of the framework detection engine of the CESiteAnalyzer
repository (src/popup.js, with variant revisions in src/unnamed/part_000 and
src/unnamed/part_001).  The engine is the function `analyzePage` injected into
the inspected page: it evaluates a static signal catalog against the live
document and returns, per detection family, the framework names whose
accumulated confidence reaches their threshold.

The embedding below translates the data model and the scoring loop of
`getDetectedFrameworks` (src/popup.js lines 353-577) together with the
wrapper logic of `analyzePage` (lines 579-604).  The document is modelled as
a read-only snapshot `Doc` of the page state that the engine reads: script
sources, stylesheet hrefs, serialized markup, global-variable truthiness,
selector query results and class-attribute strings.  Fallible DOM calls
(querySelectorAll on an arbitrary selector string, custom predicates) are
modelled as `Except Unit`-valued, an `error` value standing for a thrown
exception that the engine catches.
-/

namespace CESite

/-- JS `String.prototype.toLowerCase`, ASCII case folding on the character
sequence of the string (the patterns and URLs the engine lowers are ASCII). -/
def toLowerCase (s : String) : String := ⟨s.data.map Char.toLower⟩

/-- Helper for `strIncludes`: does `needle` occur as a contiguous run inside
the remaining character list? -/
def includesAux (needle : List Char) : List Char → Bool
  | [] => needle.isEmpty
  | c :: rest => needle.isPrefixOf (c :: rest) || includesAux needle rest

/-- JS `String.prototype.includes`: substring containment test. -/
def strIncludes (hay needle : String) : Bool := includesAux needle.data hay.data

/-- Read-only snapshot of the inspected document state, exactly the
capabilities `analyzePage` in src/popup.js reads from the page. -/
structure Doc where
  /-- `tag.src` for each element returned by
  `document.querySelectorAll('script[src]')`, in document order. -/
  scriptSrcs : List String
  /-- `link.href` for each element returned by
  `document.querySelectorAll('link[rel="stylesheet"][href]')`.  The detection
  engine itself never reads these; they are part of the document state so
  that properties about stylesheet hrefs can be stated. -/
  styleHrefs : List String
  /-- `document.documentElement.outerHTML`. -/
  pageSource : String
  /-- Truthiness of `window[p]` for a global name `p`. -/
  globals : String → Bool
  /-- `document.querySelectorAll(sel).length` for a selector string `sel`;
  `Except.error ()` models the call throwing on an invalid selector. -/
  querySelectorAllCount : String → Except Unit Nat
  /-- The class-attribute string of each element returned by
  `document.querySelectorAll('[class]')`, read as the engine reads it
  (`el.className`, or `el.className.baseVal` for SVG, else the empty
  string). -/
  classStrings : List String
  /-- Whether `document.getElementById(id)` finds an element. -/
  getElementByIdHit : String → Bool
  /-- Truthiness of `typeof window.$ === 'function' && window.$.fn &&
  window.$.fn.jquery` (the jQuery dom test). -/
  windowDollarIsJQuery : Bool
  /-- `getComputedStyle(document.body).getPropertyValue(prop)`;
  `Except.error ()` models the lookup throwing. -/
  bodyComputedProp : String → Except Unit String

/-- One detection signal of the catalog (src/popup.js lines 161-350): a type
tag, a pattern list for the pattern-based types, an optional predicate for
the predicate-based types, and a weight. -/
structure Signal where
  type : String
  patterns : List String := []
  test : Option (Doc → Except Unit Bool) := none
  weight : Nat

/-- One catalog entry: framework name, mutable confidence accumulator
(0 in the catalog as written), signal list and detection threshold. -/
structure Framework where
  name : String
  confidence : Nat
  signals : List Signal
  minConfidence : Nat

/-- Contribution of one pattern of a `global` signal: `if (window[pattern])
framework.confidence += signal.weight` (src/popup.js lines 374-392). -/
def globalPatternScore (doc : Doc) (w : Nat) (p : String) : Nat :=
  if doc.globals p then w else 0

/-- Contribution of one pattern of a `file` signal (src/popup.js lines
395-436): a case-insensitive match against some loaded script src adds the
full weight; otherwise a substring match in the lowered page markup adds 1;
otherwise nothing. -/
def filePatternScore (doc : Doc) (w : Nat) (p : String) : Nat :=
  let patternLower := toLowerCase p
  if doc.scriptSrcs.any (fun src => strIncludes (toLowerCase src) patternLower) then w
  else if strIncludes (toLowerCase doc.pageSource) patternLower then 1
  else 0

/-- The selector string built for one pattern of an `attribute` signal:
`[${pattern}],[data-${pattern}]` (src/popup.js line 441). -/
def attrSelector (p : String) : String := "[" ++ p ++ "],[data-" ++ p ++ "]"

/-- Contribution of one pattern of an `attribute` signal (src/popup.js lines
439-466): full weight when `querySelectorAll` finds a matching element; a
thrown selector error is caught and contributes nothing. -/
def attrPatternScore (doc : Doc) (w : Nat) (p : String) : Nat :=
  match doc.querySelectorAllCount (attrSelector p) with
  | .ok n => if 0 < n then w else 0
  | .error _ => 0

/-- Contribution of one pattern of a `class` signal (src/popup.js lines
469-511): the element loop breaks at the first class string containing the
lowered pattern, so the weight is added at most once per pattern. -/
def classPatternScore (doc : Doc) (w : Nat) (p : String) : Nat :=
  let patternLower := toLowerCase p
  if doc.classStrings.any (fun cls => strIncludes (toLowerCase cls) patternLower) then w
  else 0

/-- Contribution of a predicate signal (`dom` / `styleRule` / `multiClass`,
src/popup.js lines 513-550): full weight when the predicate returns true; a
thrown exception is caught and contributes nothing. -/
def testScore (doc : Doc) (w : Nat) : Option (Doc → Except Unit Bool) → Nat
  | some t =>
    match t doc with
    | .ok true => w
    | .ok false => 0
    | .error _ => 0
  | none => 0

/-- Total contribution of one signal to `framework.confidence`: the signal
loop body of `getDetectedFrameworks` (src/popup.js lines 364-556), one
guarded block per signal type. -/
def evalSignal (doc : Doc) (s : Signal) : Nat :=
  (if s.type = "global" then
    s.patterns.foldl (fun acc p => acc + globalPatternScore doc s.weight p) 0 else 0)
  + (if s.type = "file" then
    s.patterns.foldl (fun acc p => acc + filePatternScore doc s.weight p) 0 else 0)
  + (if s.type = "attribute" then
    s.patterns.foldl (fun acc p => acc + attrPatternScore doc s.weight p) 0 else 0)
  + (if s.type = "class" then
    s.patterns.foldl (fun acc p => acc + classPatternScore doc s.weight p) 0 else 0)
  + (if s.type = "dom" then testScore doc s.weight s.test else 0)
  + (if s.type = "styleRule" then testScore doc s.weight s.test else 0)
  + (if s.type = "multiClass" then testScore doc s.weight s.test else 0)

/-- The confidence a framework accumulates in one pass: reset to 0, then
each signal adds its contribution (src/popup.js lines 358-556). -/
def frameworkConfidence (doc : Doc) (fw : Framework) : Nat :=
  fw.signals.foldl (fun acc s => acc + evalSignal doc s) 0

/-- The effect of one pass on a catalog entry: only the confidence
accumulator changes, overwritten with the freshly computed sum. -/
def evalFramework (doc : Doc) (fw : Framework) : Framework :=
  { fw with confidence := frameworkConfidence doc fw }

/-- `getDetectedFrameworks` from src/popup.js lines 353-577: walk the
catalog in order, re-evaluate each entry, and push the name of every entry
whose confidence reaches its threshold.  Returns the catalog with updated
accumulators together with the detected names. -/
def getDetectedFrameworks (doc : Doc) (frameworkList : List Framework) :
    List Framework × List String :=
  frameworkList.foldl (fun acc fw =>
    let fw2 := evalFramework doc fw
    (acc.1 ++ [fw2], if fw2.minConfidence ≤ fw2.confidence then acc.2 ++ [fw2.name] else acc.2))
    ([], [])

/-- Pure characterization of the detected names: the catalog entries meeting
their threshold, in catalog order. -/
def detectedNames (doc : Doc) (l : List Framework) : List String :=
  (l.filter (fun fw => fw.minConfidence ≤ frameworkConfidence doc fw)).map Framework.name

/-! ## The built-in signal catalog (`FRAMEWORK_DETECTION`, src/popup.js 161-350) -/

/-- `!!document.querySelector(sel)` as the engine's predicates use it: true
when the selector finds at least one element; a selector error propagates. -/
def qsHit (doc : Doc) (sel : String) : Except Unit Bool :=
  match doc.querySelectorAllCount sel with
  | .ok n => .ok (decide (0 < n))
  | .error e => .error e

/-- `document.querySelectorAll(sel).length > k`; a selector error
propagates. -/
def qsCountGT (doc : Doc) (sel : String) (k : Nat) : Except Unit Bool :=
  match doc.querySelectorAllCount sel with
  | .ok n => .ok (decide (k < n))
  | .error e => .error e

/-- JS word character, `\w` of the Tailwind multiClass regular expression. -/
def isWordChar (c : Char) : Bool := c.isAlphanum || c = '_'

/-- Word boundary to the right of a match of the Tailwind regular
expression. -/
def boundaryAfter : List Char → Bool
  | [] => true
  | c :: _ => !isWordChar c

/-- One alternative of `\b(flex|grid|px-\d|py-\d|mx-\d|my-\d|text-\w+)\b`
matched at the head of the character list, including the trailing word
boundary. -/
def twAltAt (l : List Char) : Bool :=
  (match l with
   | 'f' :: 'l' :: 'e' :: 'x' :: rest => boundaryAfter rest
   | _ => false) ||
  (match l with
   | 'g' :: 'r' :: 'i' :: 'd' :: rest => boundaryAfter rest
   | _ => false) ||
  (match l with
   | 'p' :: 'x' :: '-' :: c :: rest => c.isDigit && boundaryAfter rest
   | _ => false) ||
  (match l with
   | 'p' :: 'y' :: '-' :: c :: rest => c.isDigit && boundaryAfter rest
   | _ => false) ||
  (match l with
   | 'm' :: 'x' :: '-' :: c :: rest => c.isDigit && boundaryAfter rest
   | _ => false) ||
  (match l with
   | 'm' :: 'y' :: '-' :: c :: rest => c.isDigit && boundaryAfter rest
   | _ => false) ||
  (match l with
   | 't' :: 'e' :: 'x' :: 't' :: '-' :: c :: _ => isWordChar c
   | _ => false)

/-- Scan for a boundary-delimited match anywhere in the list, tracking the
previous character for the leading word boundary. -/
def twScan (prev : Option Char) : List Char → Bool
  | [] => false
  | c :: rest =>
    ((match prev with | none => true | some p => !isWordChar p) && twAltAt (c :: rest))
      || twScan (some c) rest

/-- `tailwindPatterns.test(cls)` for the regular expression
`/\b(flex|grid|px-\d|py-\d|mx-\d|my-\d|text-\w+)\b/` (src/popup.js 287). -/
def tailwindTest (s : String) : Bool := twScan none s.data

/-- The `js` family of `FRAMEWORK_DETECTION` (src/popup.js lines 162-261),
entry by entry. -/
def reactDef : Framework :=
  { name := "React", confidence := 0, signals := [
      { type := "global", patterns := ["React", "ReactDOM", "__REACT_DEVTOOLS_GLOBAL_HOOK__"], weight := 3 },
      { type := "attribute", patterns := ["data-reactroot", "data-reactid"], weight := 5 },
      { type := "class", patterns := ["react-", "_react"], weight := 2 },
      { type := "file", patterns := ["react.js", "react.min.js", "react-dom"], weight := 4 }],
    minConfidence := 4 }

def angularDef : Framework :=
  { name := "AngularJS", confidence := 0, signals := [
      { type := "attribute", patterns := ["ng-app", "ng-controller", "ng-model", "ng-repeat"], weight := 5 },
      { type := "global", patterns := ["angular.module", "angular.bootstrap"], weight := 4 },
      { type := "file", patterns := ["angular.js", "angular.min.js"], weight := 4 },
      { type := "dom", test := some (fun doc => qsHit doc "[ng-app],[data-ng-app]"), weight := 5 }],
    minConfidence := 5 }

def vueDef : Framework :=
  { name := "Vue.js", confidence := 0, signals := [
      { type := "global", patterns := ["Vue", "VueRouter", "Vuex"], weight := 4 },
      { type := "attribute", patterns := ["v-if", "v-for", "v-model", "v-on", "v-bind"], weight := 5 },
      { type := "dom", test := some (fun doc => qsHit doc "[v-cloak],[v-if],[v-for]"), weight := 5 },
      { type := "file", patterns := ["vue.js", "vue.min.js", "vue-router"], weight := 3 }],
    minConfidence := 4 }

def svelteDef : Framework :=
  { name := "Svelte", confidence := 0, signals := [
      { type := "global", patterns := ["Svelte", "__SVELTE"], weight := 4 },
      { type := "attribute", patterns := ["svelte-"], weight := 5 },
      { type := "dom", test := some (fun doc => qsCountGT doc "[svelte-]" 0), weight := 5 },
      { type := "file", patterns := ["svelte.js", "svelte.min.js", "svelte-"], weight := 3 }],
    minConfidence := 4 }

def jqueryDef : Framework :=
  { name := "jQuery", confidence := 0, signals := [
      { type := "global", patterns := ["jQuery", "$"], weight := 3 },
      { type := "dom", test := some (fun doc => .ok doc.windowDollarIsJQuery), weight := 5 },
      { type := "file", patterns := ["jquery.js", "jquery.min.js"], weight := 4 }],
    minConfidence := 5 }

def alpineDef : Framework :=
  { name := "Alpine.js", confidence := 0, signals := [
      { type := "global", patterns := ["Alpine"], weight := 4 },
      { type := "attribute", patterns := ["x-data", "x-bind", "x-on", "x-show"], weight := 5 },
      { type := "dom", test := some (fun doc => qsHit doc "[x-data]"), weight := 5 },
      { type := "file", patterns := ["alpine.js", "alpine.min.js"], weight := 3 }],
    minConfidence := 4 }

def nextDef : Framework :=
  { name := "Next.js", confidence := 0, signals := [
      { type := "global", patterns := ["__NEXT_DATA__"], weight := 5 },
      { type := "dom", test := some (fun doc => .ok (doc.getElementByIdHit "__next")), weight := 4 },
      { type := "attribute", patterns := ["data-next-page", "next-head"], weight := 4 },
      { type := "file", patterns := ["_next/"], weight := 3 }],
    minConfidence := 4 }

def nuxtDef : Framework :=
  { name := "Nuxt.js", confidence := 0, signals := [
      { type := "global", patterns := ["__NUXT__"], weight := 5 },
      { type := "dom", test := some (fun doc => .ok (doc.getElementByIdHit "__nuxt")), weight := 4 },
      { type := "attribute", patterns := ["data-n-head", "nuxt-link"], weight := 4 },
      { type := "file", patterns := ["_nuxt/"], weight := 3 }],
    minConfidence := 4 }

def emberDef : Framework :=
  { name := "Ember.js", confidence := 0, signals := [
      { type := "global", patterns := ["Ember", "EmberENV"], weight := 4 },
      { type := "dom", test := some (fun doc => qsHit doc "[data-ember-action]"), weight := 5 },
      { type := "attribute", patterns := ["data-ember-action", "ember-view"], weight := 4 },
      { type := "file", patterns := ["ember.js", "ember.min.js"], weight := 3 }],
    minConfidence := 4 }

def FRAMEWORK_DETECTION_js : List Framework :=
  [reactDef, angularDef, vueDef, svelteDef, jqueryDef, alpineDef, nextDef, nuxtDef, emberDef]

/-- The `css` family of `FRAMEWORK_DETECTION` (src/popup.js lines 262-349). -/
def bootstrapDef : Framework :=
  { name := "Bootstrap", confidence := 0, signals := [
      { type := "class", patterns := ["navbar-expand-", "col-md-", "container-fluid", "row", "btn-primary"], weight := 4 },
      { type := "file", patterns := ["bootstrap"], weight := 3 },
      { type := "styleRule", test := some (fun doc =>
          .ok (match doc.bodyComputedProp "--bs-primary" with
               | .ok v => !v.isEmpty
               | .error _ => false)), weight := 5 }],
    minConfidence := 5 }

def tailwindDef : Framework :=
  { name := "Tailwind CSS", confidence := 0, signals := [
      { type := "class", patterns := ["text-", "bg-", "flex", "grid", "px-", "py-", "mx-", "my-"], weight := 3 },
      { type := "multiClass", test := some (fun doc =>
          .ok (decide (5 < (doc.classStrings.filter
            (fun cls => !cls.isEmpty && tailwindTest cls)).length))), weight := 5 },
      { type := "file", patterns := ["tailwind"], weight := 3 }],
    minConfidence := 5 }

def bulmaDef : Framework :=
  { name := "Bulma", confidence := 0, signals := [
      { type := "class", patterns := ["is-primary", "is-info", "columns", "navbar-burger"], weight := 4 },
      { type := "file", patterns := ["bulma"], weight := 3 },
      { type := "multiClass", test := some (fun doc =>
          match qsHit doc ".column.is-" with
          | .ok true => .ok true
          | .ok false => qsHit doc ".navbar.is-"
          | .error e => .error e), weight := 5 }],
    minConfidence := 4 }

def foundationDef : Framework :=
  { name := "Foundation", confidence := 0, signals := [
      { type := "class", patterns := ["button.", "callout", "small-", "medium-", "large-"], weight := 3 },
      { type := "file", patterns := ["foundation"], weight := 3 },
      { type := "dom", test := some (fun doc => qsHit doc ".row .column, .row .columns"), weight := 5 }],
    minConfidence := 4 }

def materialDef : Framework :=
  { name := "Material UI", confidence := 0, signals := [
      { type := "class", patterns := ["MuiButton-", "MuiInput-", "MuiGrid-"], weight := 5 },
      { type := "file", patterns := ["material-ui", "@material"], weight := 3 },
      { type := "dom", test := some (fun doc => qsCountGT doc "[class*=\"Mui\"]" 3), weight := 4 }],
    minConfidence := 4 }

def semanticDef : Framework :=
  { name := "Semantic UI", confidence := 0, signals := [
      { type := "class", patterns := ["ui segment", "ui button", "ui grid", "ui form"], weight := 4 },
      { type := "file", patterns := ["semantic", "semantic-ui"], weight := 3 },
      { type := "dom", test := some (fun doc => qsCountGT doc ".ui.button, .ui.segment, .ui.grid" 2), weight := 5 }],
    minConfidence := 4 }

def chakraDef : Framework :=
  { name := "Chakra UI", confidence := 0, signals := [
      { type := "attribute", patterns := ["data-chakra-"], weight := 5 },
      { type := "class", patterns := ["chakra-"], weight := 4 },
      { type := "file", patterns := ["chakra-ui", "@chakra"], weight := 3 }],
    minConfidence := 4 }

def FRAMEWORK_DETECTION_css : List Framework :=
  [bootstrapDef, tailwindDef, bulmaDef, foundationDef, materialDef, semanticDef, chakraDef]

/-! ## The analyzePage wrapper (src/popup.js 579-604) -/

/-- The options read by `analyzePage` (src/popup.js 111-117); the two
file-listing flags drive the out-of-scope file listing utilities. -/
structure DetectionOptions where
  jsFrameworks : Bool
  cssFrameworks : Bool
  listJS : Bool
  listCSS : Bool
  debugMode : Bool

/-- The framework portion of the findings object returned by `analyzePage`
(src/popup.js 579-604). -/
structure DetectionResult where
  jsFrameworks : List String
  cssFrameworks : List String
deriving DecidableEq, Repr

/-- The per-family wrapper block repeated in `analyzePage` (src/popup.js
586-604) and named `detectFrameworks` in src/unnamed/part_000 lines 469-497:
run the engine on the family catalog and substitute the sentinel for an
empty result. -/
def detectFamily (doc : Doc) (catalog : List Framework) : List String :=
  let r := (getDetectedFrameworks doc catalog).2
  if r.length = 0 then r ++ ["None detected"] else r

/-- The framework detection part of `analyzePage` (src/popup.js 579-604).
A disabled family keeps its initial empty list.  The file-listing branches
(`options.listJS` / `options.listCSS`) are the out-of-scope plain filtering
utilities and are not part of the detection engine. -/
def analyzePageFrameworks (options : DetectionOptions) (doc : Doc) : DetectionResult :=
  { jsFrameworks :=
      if options.jsFrameworks then detectFamily doc FRAMEWORK_DETECTION_js else [],
    cssFrameworks :=
      if options.cssFrameworks then detectFamily doc FRAMEWORK_DETECTION_css else [] }

/-- A document with no scripts, no stylesheets, empty markup, no truthy
globals, no matching elements: a fixture for concrete evaluations. -/
def emptyDoc : Doc :=
  { scriptSrcs := [], styleHrefs := [], pageSource := "",
    globals := fun _ => false,
    querySelectorAllCount := fun _ => .ok 0,
    classStrings := [],
    getElementByIdHit := fun _ => false,
    windowDollarIsJQuery := false,
    bodyComputedProp := fun _ => .ok "" }

/-! ## Concrete document fixtures -/

/-- A document with `window.React` truthy and one script whose src contains
`react.min.js`: the React scenario of the spec. -/
def reactDoc : Doc :=
  { emptyDoc with
    scriptSrcs := ["https://cdn.example.com/react.min.js"],
    globals := fun s => s = "React" }

/-- A document whose only occurrence of the pattern `bootstrap` is the href
of a loaded stylesheet link element (and hence, as in any real document, a
substring of the serialized markup).  No scripts at all. -/
def styleOnlyDoc : Doc :=
  { emptyDoc with
    styleHrefs := ["https://cdn.example.com/bootstrap.min.css"],
    pageSource := "<html><head><link rel=\"stylesheet\" href=\"https://cdn.example.com/bootstrap.min.css\"></head><body></body></html>" }

/-- The file signal of the Bootstrap catalog entry (src/popup.js 268). -/
def bootstrapFileSignal : Signal :=
  { type := "file", patterns := ["bootstrap"], weight := 3 }

/-- The file signal of the React catalog entry (src/popup.js 170). -/
def reactFileSignal : Signal :=
  { type := "file", patterns := ["react.js", "react.min.js", "react-dom"], weight := 4 }

/-- A predicate that throws on any document. -/
def errTest : Doc → Except Unit Bool := fun _ => .error ()

/-- A document on which the attribute selector built from the pattern
`bad[` makes `querySelectorAll` throw, while every other selector finds
nothing. -/
def errDoc : Doc :=
  { emptyDoc with
    querySelectorAllCount := fun sel =>
      if sel = attrSelector "bad[" then .error () else .ok 0 }

/-- Options with every analysis family disabled. -/
def offOptions : DetectionOptions :=
  { jsFrameworks := false, cssFrameworks := false, listJS := false,
    listCSS := false, debugMode := false }

/-- Options running only the JS framework family. -/
def jsOptions : DetectionOptions :=
  { jsFrameworks := true, cssFrameworks := false, listJS := false,
    listCSS := false, debugMode := false }

/-- An attribute signal whose pattern yields an invalid selector on
`errDoc`. -/
def badAttrSignal : Signal :=
  { type := "attribute", patterns := ["bad["], weight := 5 }

/-- A predicate signal whose test throws on every document. -/
def errTestSignal : Signal :=
  { type := "dom", test := some errTest, weight := 5 }

/-- A catalog entry carrying only the throwing predicate signal. -/
def errFrameworkDef : Framework :=
  { name := "ErrFw", confidence := 0, signals := [errTestSignal], minConfidence := 0 }

/-- A document with two elements whose class strings contain `react-`. -/
def multiClassDoc : Doc :=
  { emptyDoc with classStrings := ["react-root", "react-button"] }

/-- The class signal of the React catalog entry (src/popup.js 169). -/
def reactClassSignal : Signal :=
  { type := "class", patterns := ["react-", "_react"], weight := 2 }

/-! ## Debug-instrumented engine (C8)

`analyzePage` builds `debugLog` from `options.debugMode` (src/popup.js
154-158): a console writer when true, a no-op when false.  The instrumented
definitions below re-translate the same scoring loop together with its
debug emissions, modelling the console output as a list of message strings
(structured payloads are summarized by the leading message text).  The
fired flag models `signalResults.detected`. -/

def globalPatternFired (doc : Doc) (p : String) : Bool := doc.globals p

def filePatternFired (doc : Doc) (p : String) : Bool :=
  doc.scriptSrcs.any (fun src => strIncludes (toLowerCase src) (toLowerCase p))
    || strIncludes (toLowerCase doc.pageSource) (toLowerCase p)

def attrPatternFired (doc : Doc) (p : String) : Bool :=
  match doc.querySelectorAllCount (attrSelector p) with
  | .ok n => decide (0 < n)
  | .error _ => false

def classPatternFired (doc : Doc) (p : String) : Bool :=
  doc.classStrings.any (fun cls => strIncludes (toLowerCase cls) (toLowerCase p))

def testFired (doc : Doc) : Option (Doc → Except Unit Bool) → Bool
  | some t =>
    match t doc with
    | .ok true => true
    | .ok false => false
    | .error _ => false
  | none => false

/-- Console output of one `file` pattern (src/popup.js 410-433): the
debugLog call on a script match, or the source-context debugLog on a markup
fallback match; nothing when debug mode is off. -/
def filePatternTrace (dbg : Bool) (doc : Doc) (p : String) : List String :=
  if dbg then
    if doc.scriptSrcs.any (fun src => strIncludes (toLowerCase src) (toLowerCase p)) then
      ["Script file matching \"" ++ p ++ "\":"]
    else if strIncludes (toLowerCase doc.pageSource) (toLowerCase p) then
      ["Source context containing \"" ++ p ++ "\":"]
    else []
  else []

/-- Console output of one `attribute` pattern (src/popup.js 450-451). -/
def attrPatternTrace (dbg : Bool) (doc : Doc) (p : String) : List String :=
  if dbg then
    match doc.querySelectorAllCount (attrSelector p) with
    | .ok n =>
      if 0 < n then ["Detected " ++ toString n ++ " elements with attribute: " ++ p]
      else []
    | .error _ => []
  else []

/-- The shape of every pattern loop of the signal evaluator: accumulate
score, fired flag, and console trace over the pattern list. -/
def dbgFold (fs : String → Nat) (ff : String → Bool) (ft : String → List String)
    (l : List String) : Nat × Bool × List String :=
  l.foldl (fun acc p => (acc.1 + fs p, acc.2.1 || ff p, acc.2.2 ++ ft p))
    (0, false, [])

/-- Instrumented signal evaluation: score, fired flag, console trace. -/
def evalSignalDbg (dbg : Bool) (doc : Doc) (s : Signal) : Nat × Bool × List String :=
  if s.type = "global" then
    dbgFold (globalPatternScore doc s.weight) (globalPatternFired doc)
      (fun _ => []) s.patterns
  else if s.type = "file" then
    dbgFold (filePatternScore doc s.weight) (filePatternFired doc)
      (filePatternTrace dbg doc) s.patterns
  else if s.type = "attribute" then
    dbgFold (attrPatternScore doc s.weight) (attrPatternFired doc)
      (attrPatternTrace dbg doc) s.patterns
  else if s.type = "class" then
    dbgFold (classPatternScore doc s.weight) (classPatternFired doc)
      (fun _ => []) s.patterns
  else if s.type = "dom" ∨ s.type = "styleRule" ∨ s.type = "multiClass" then
    (testScore doc s.weight s.test, testFired doc s.test, [])
  else (0, false, [])

/-- One step of the signal loop of the instrumented framework evaluation:
confidence, the detectionDetails entries (type and weight of each detected
signal), and the console trace so far. -/
def fwStep (dbg : Bool) (doc : Doc)
    (acc : Nat × List (String × Nat) × List String) (s : Signal) :
    Nat × List (String × Nat) × List String :=
  let r := evalSignalDbg dbg doc s
  (acc.1 + r.1,
   acc.2.1 ++ (if r.2.1 then [(s.type, s.weight)] else []),
   acc.2.2 ++ r.2.2)

/-- Instrumented evaluation of one catalog entry: the updated entry plus its
console trace (per-signal debug lines, then, for a detected framework in
debug mode, the summary line, the detectionDetails lines and the visual
separator, src/popup.js 562-572). -/
def evalFrameworkDbg (dbg : Bool) (doc : Doc) (fw : Framework) :
    Framework × List String :=
  let step := fw.signals.foldl (fwStep dbg doc) (0, [], [])
  ({ fw with confidence := step.1 },
   step.2.2 ++
     (if fw.minConfidence ≤ step.1 then
        (if dbg then
          ("Detected " ++ fw.name ++ " with confidence score: " ++ toString step.1
            ++ "/" ++ toString fw.minConfidence)
            :: (step.2.1.map (fun d =>
                  "Signal type: " ++ d.1 ++ " (weight: " ++ toString d.2 ++ ")")
                ++ ["------------------------------------"])
         else [])
      else []))

/-- One step of the instrumented catalog walk: update the evaluated catalog
and detected names as the plain engine does, and append the console trace
of the entry. -/
def catStep (dbg : Bool) (doc : Doc)
    (acc : (List Framework × List String) × List String) (fw : Framework) :
    (List Framework × List String) × List String :=
  let r := evalFrameworkDbg dbg doc fw
  ((acc.1.1 ++ [r.1],
    if r.1.minConfidence ≤ r.1.confidence then acc.1.2 ++ [r.1.name] else acc.1.2),
   acc.2 ++ r.2)

/-- Instrumented catalog walk: the plain engine result plus the
concatenated console trace. -/
def getDetectedFrameworksDbg (dbg : Bool) (doc : Doc) (l : List Framework) :
    (List Framework × List String) × List String :=
  l.foldl (catStep dbg doc) (([], []), [])

/-- Instrumented per-family wrapper. -/
def detectFamilyDbg (dbg : Bool) (doc : Doc) (catalog : List Framework) :
    List String × List String :=
  let r := getDetectedFrameworksDbg dbg doc catalog
  (if r.1.2.length = 0 then r.1.2 ++ ["None detected"] else r.1.2, r.2)

/-- Instrumented `analyzePage` framework portion: result plus trace. -/
def analyzePageDbg (options : DetectionOptions) (doc : Doc) :
    DetectionResult × List String :=
  let js := if options.jsFrameworks
    then detectFamilyDbg options.debugMode doc FRAMEWORK_DETECTION_js
    else ([], [])
  let css := if options.cssFrameworks
    then detectFamilyDbg options.debugMode doc FRAMEWORK_DETECTION_css
    else ([], [])
  ({ jsFrameworks := js.1, cssFrameworks := css.1 }, js.2 ++ css.2)

theorem detectedNames_nil (doc : Doc) : detectedNames doc [] = [] := rfl

theorem detectedNames_cons (doc : Doc) (fw : Framework) (l : List Framework) :
    detectedNames doc (fw :: l) =
      (if fw.minConfidence ≤ frameworkConfidence doc fw then [fw.name] else [])
        ++ detectedNames doc l := by
  by_cases h : fw.minConfidence ≤ frameworkConfidence doc fw <;>
    simp [detectedNames, List.filter_cons, h]

theorem getDetectedFrameworks_aux (doc : Doc) (l : List Framework)
    (a : List Framework) (b : List String) :
    l.foldl (fun acc fw =>
      let fw2 := evalFramework doc fw
      (acc.1 ++ [fw2], if fw2.minConfidence ≤ fw2.confidence then acc.2 ++ [fw2.name] else acc.2))
      (a, b)
    = (a ++ l.map (evalFramework doc), b ++ detectedNames doc l) := by
  induction l generalizing a b with
  | nil => simp [detectedNames]
  | cons fw l ih =>
    simp only [List.foldl_cons, ih, detectedNames_cons, List.map_cons]
    by_cases h : fw.minConfidence ≤ frameworkConfidence doc fw <;>
      simp [evalFramework, h]

/-- The returned pair of `getDetectedFrameworks`: freshly evaluated catalog,
and the names of the entries meeting their threshold, in catalog order. -/
theorem getDetectedFrameworks_eq (doc : Doc) (l : List Framework) :
    getDetectedFrameworks doc l = (l.map (evalFramework doc), detectedNames doc l) := by
  simpa using getDetectedFrameworks_aux doc l [] []

/-! ## General lemmas about the scoring loop -/

theorem foldl_add_eq {α : Type} (f : α → Nat) (l : List α) (n : Nat) :
    l.foldl (fun acc x => acc + f x) n = n + (l.map f).sum := by
  induction l generalizing n with
  | nil => simp
  | cons x l ih =>
    simp only [List.foldl_cons, ih, List.map_cons, List.sum_cons]
    omega

theorem sum_map_split {α : Type} (f : α → Nat) (ps qs : List α) (p : α) :
    ((ps ++ p :: qs).map f).sum = ((ps ++ qs).map f).sum + f p := by
  simp only [List.map_append, List.sum_append, List.map_cons, List.sum_cons]
  omega

theorem evalSignal_global (doc : Doc) (s : Signal) (h : s.type = "global") :
    evalSignal doc s = (s.patterns.map (globalPatternScore doc s.weight)).sum := by
  simp [evalSignal, h, foldl_add_eq]

theorem evalSignal_file (doc : Doc) (s : Signal) (h : s.type = "file") :
    evalSignal doc s = (s.patterns.map (filePatternScore doc s.weight)).sum := by
  simp [evalSignal, h, foldl_add_eq]

theorem evalSignal_attribute (doc : Doc) (s : Signal) (h : s.type = "attribute") :
    evalSignal doc s = (s.patterns.map (attrPatternScore doc s.weight)).sum := by
  simp [evalSignal, h, foldl_add_eq]

theorem evalSignal_class (doc : Doc) (s : Signal) (h : s.type = "class") :
    evalSignal doc s = (s.patterns.map (classPatternScore doc s.weight)).sum := by
  simp [evalSignal, h, foldl_add_eq]

theorem evalSignal_test (doc : Doc) (s : Signal)
    (h : s.type = "dom" ∨ s.type = "styleRule" ∨ s.type = "multiClass") :
    evalSignal doc s = testScore doc s.weight s.test := by
  rcases h with h | h | h <;> simp [evalSignal, h]

theorem frameworkConfidence_eq_sum (doc : Doc) (fw : Framework) :
    frameworkConfidence doc fw = (fw.signals.map (evalSignal doc)).sum := by
  simp [frameworkConfidence, foldl_add_eq]

theorem detectedNames_append (doc : Doc) (l1 l2 : List Framework) :
    detectedNames doc (l1 ++ l2) = detectedNames doc l1 ++ detectedNames doc l2 := by
  simp [detectedNames, List.filter_append]

theorem detectedNames_subset_names (doc : Doc) (l : List Framework) :
    ∀ x ∈ detectedNames doc l, x ∈ l.map Framework.name := by
  intro x hx
  obtain ⟨fw, hfwmem, hfwname⟩ := List.mem_map.mp hx
  exact List.mem_map.mpr ⟨fw, List.mem_of_mem_filter hfwmem, hfwname⟩

/-! ## Claims -/

/-- C1: for every framework in the supplied catalog list, after one
evaluation pass its name appears in the returned sequence iff its
accumulated confidence reaches its minConfidence; when it appears it appears
exactly once, and the returned names are in catalog order (a sublist of the
catalog's name list, not sorted by score). -/
theorem detection_membership_count_order (doc : Doc) (catalog : List Framework)
    (fw : Framework) (hnodup : (catalog.map Framework.name).Nodup)
    (hmem : fw ∈ catalog) :
    (getDetectedFrameworks doc catalog).2.Sublist (catalog.map Framework.name) ∧
    (fw.name ∈ (getDetectedFrameworks doc catalog).2 ↔
      fw.minConfidence ≤ frameworkConfidence doc fw) ∧
    (getDetectedFrameworks doc catalog).2.count fw.name
      = (if fw.minConfidence ≤ frameworkConfidence doc fw then 1 else 0) := by
  have hsnd : (getDetectedFrameworks doc catalog).2 = detectedNames doc catalog := by
    rw [getDetectedFrameworks_eq]
  have hsub : (detectedNames doc catalog).Sublist (catalog.map Framework.name) :=
    List.Sublist.map Framework.name (List.filter_sublist catalog)
  have hiff : fw.name ∈ detectedNames doc catalog ↔
      fw.minConfidence ≤ frameworkConfidence doc fw := by
    constructor
    · intro hin
      obtain ⟨b, hbf, hbn⟩ := List.mem_map.mp hin
      have hbp : b.minConfidence ≤ frameworkConfidence doc b := by
        simpa using List.of_mem_filter hbf
      have hbfw : b = fw :=
        List.inj_on_of_nodup_map hnodup (List.mem_of_mem_filter hbf) hmem hbn
      exact hbfw ▸ hbp
    · intro hth
      exact List.mem_map.mpr ⟨fw, List.mem_filter.mpr ⟨hmem, decide_eq_true hth⟩, rfl⟩
  rw [hsnd]
  refine ⟨hsub, hiff, ?_⟩
  by_cases hth : fw.minConfidence ≤ frameworkConfidence doc fw
  · rw [if_pos hth]
    exact List.count_eq_one_of_mem (List.Nodup.sublist hsub hnodup) (hiff.mpr hth)
  · rw [if_neg hth]
    exact List.count_eq_zero_of_not_mem (fun hin => hth (hiff.mp hin))

theorem detection_membership_count_order_witness :
    (getDetectedFrameworks reactDoc FRAMEWORK_DETECTION_js).2.Sublist
      (FRAMEWORK_DETECTION_js.map Framework.name) ∧
    ("React" ∈ (getDetectedFrameworks reactDoc FRAMEWORK_DETECTION_js).2 ↔
      reactDef.minConfidence ≤ frameworkConfidence reactDoc reactDef) ∧
    (getDetectedFrameworks reactDoc FRAMEWORK_DETECTION_js).2.count "React"
      = (if reactDef.minConfidence ≤ frameworkConfidence reactDoc reactDef
         then 1 else 0) :=
  detection_membership_count_order reactDoc FRAMEWORK_DETECTION_js reactDef
    (by decide) (by simp [FRAMEWORK_DETECTION_js])

/-- C2: for a `file` signal, each pattern adds the full declared weight when
it matches (case-insensitively) the src of some loaded script tag, and adds
exactly 1 when it matches no script src but occurs as a substring of the
serialized page markup. -/
theorem file_signal_weighting (doc : Doc) (s : Signal) (ps qs : List String)
    (p : String) (htype : s.type = "file") (hsplit : s.patterns = ps ++ p :: qs) :
    evalSignal doc s
      = evalSignal doc { s with patterns := ps ++ qs }
        + (if doc.scriptSrcs.any
              (fun src => strIncludes (toLowerCase src) (toLowerCase p))
           then s.weight
           else if strIncludes (toLowerCase doc.pageSource) (toLowerCase p)
           then 1 else 0) := by
  have h2 : ({ s with patterns := ps ++ qs } : Signal).type = "file" := htype
  rw [evalSignal_file doc s htype, evalSignal_file doc _ h2, hsplit, sum_map_split]
  rfl

theorem file_signal_weighting_witness :
    evalSignal reactDoc reactFileSignal
      = evalSignal reactDoc
          { reactFileSignal with patterns := ["react.js"] ++ ["react-dom"] }
        + (if reactDoc.scriptSrcs.any
              (fun src => strIncludes (toLowerCase src) (toLowerCase "react.min.js"))
           then reactFileSignal.weight
           else if strIncludes (toLowerCase reactDoc.pageSource)
              (toLowerCase "react.min.js")
           then 1 else 0) :=
  file_signal_weighting reactDoc reactFileSignal ["react.js"] ["react-dom"]
    "react.min.js" rfl rfl

/-- C3 counterexample: on a document whose only occurrence of the pattern
`bootstrap` is the href of a loaded stylesheet link element, the Bootstrap
file signal fires at the markup fallback weight 1, not at its declared
weight 3.  The full-weight search does not cover stylesheet hrefs. -/
theorem stylesheet_href_not_full_weight_cex :
    (styleOnlyDoc.styleHrefs.any
      (fun href => strIncludes (toLowerCase href) (toLowerCase "bootstrap")) = true) ∧
    styleOnlyDoc.scriptSrcs = [] ∧
    bootstrapFileSignal.weight = 3 ∧
    evalSignal styleOnlyDoc bootstrapFileSignal = 1 ∧
    ¬ evalSignal styleOnlyDoc bootstrapFileSignal = bootstrapFileSignal.weight := by
  decide

/-- C3 amended: the full-weight search of a `file` signal covers only the
src values of loaded script tags; the stylesheet hrefs of the document are
never read by the engine, and a pattern that matches no script src but does
occur in the serialized markup (as a stylesheet href does) contributes the
fixed reduced weight 1. -/
theorem file_signal_scripts_only (doc : Doc) (s : Signal) (ps qs : List String)
    (p : String) (hrefs : List String)
    (htype : s.type = "file") (hsplit : s.patterns = ps ++ p :: qs)
    (hnoscript : doc.scriptSrcs.any
      (fun src => strIncludes (toLowerCase src) (toLowerCase p)) = false)
    (hmarkup : strIncludes (toLowerCase doc.pageSource) (toLowerCase p) = true) :
    evalSignal { doc with styleHrefs := hrefs } s = evalSignal doc s ∧
    evalSignal doc s = evalSignal doc { s with patterns := ps ++ qs } + 1 := by
  have h2 : ({ s with patterns := ps ++ qs } : Signal).type = "file" := htype
  constructor
  · rw [evalSignal_file _ s htype, evalSignal_file doc s htype]
    rfl
  · rw [evalSignal_file doc s htype, evalSignal_file doc _ h2, hsplit, sum_map_split]
    congr 1
    simp [filePatternScore, hnoscript, hmarkup]

theorem file_signal_scripts_only_witness :
    evalSignal { styleOnlyDoc with styleHrefs := [] } bootstrapFileSignal
      = evalSignal styleOnlyDoc bootstrapFileSignal ∧
    evalSignal styleOnlyDoc bootstrapFileSignal
      = evalSignal styleOnlyDoc
          { bootstrapFileSignal with patterns := [] ++ [] } + 1 :=
  file_signal_scripts_only styleOnlyDoc bootstrapFileSignal [] [] "bootstrap" []
    rfl rfl (by decide) (by decide)

/-- C4: for an evaluated family, an empty computed result is replaced by
exactly the one-element sentinel sequence, and (for a catalog that does not
name a framework after the sentinel, as the built-in catalogs do not) the
sentinel never appears alongside real framework names. -/
theorem sentinel_law (doc : Doc) (catalog : List Framework)
    (hn : "None detected" ∉ catalog.map Framework.name) :
    ((getDetectedFrameworks doc catalog).2 = [] →
      detectFamily doc catalog = ["None detected"]) ∧
    ("None detected" ∈ detectFamily doc catalog →
      detectFamily doc catalog = ["None detected"]) := by
  constructor
  · intro h
    simp [detectFamily, h]
  · intro hmem
    by_cases h : (getDetectedFrameworks doc catalog).2 = []
    · simp [detectFamily, h]
    · exfalso
      have hne : (getDetectedFrameworks doc catalog).2.length ≠ 0 := by
        simpa [List.length_eq_zero] using h
      have heq : detectFamily doc catalog = (getDetectedFrameworks doc catalog).2 := by
        unfold detectFamily
        simp [hne]
      rw [heq] at hmem
      have hsnd : (getDetectedFrameworks doc catalog).2 = detectedNames doc catalog := by
        rw [getDetectedFrameworks_eq]
      rw [hsnd] at hmem
      exact hn (detectedNames_subset_names doc catalog _ hmem)

theorem sentinel_law_witness :
    detectFamily emptyDoc FRAMEWORK_DETECTION_js = ["None detected"] :=
  (sentinel_law emptyDoc FRAMEWORK_DETECTION_js (by decide)).1 (by decide)

/-- C5: per-signal evaluation errors are caught at the point of use.  An
attribute pattern whose selector throws contributes nothing while the other
patterns of the signal still count; a throwing dom/styleRule/multiClass
predicate makes its signal contribute nothing; and evaluation of all
remaining signals and frameworks completes with the same result as if the
failing signal were absent. -/
theorem errors_caught_locally (doc : Doc) (sAttr sTest : Signal)
    (ps qs : List String) (p : String) (t : Doc → Except Unit Bool)
    (cat1 cat2 : List Framework) (fw : Framework) (ss1 ss2 : List Signal)
    (ha1 : sAttr.type = "attribute") (ha2 : sAttr.patterns = ps ++ p :: qs)
    (ha3 : doc.querySelectorAllCount (attrSelector p) = .error ())
    (hb1 : sTest.type = "dom" ∨ sTest.type = "styleRule" ∨ sTest.type = "multiClass")
    (hb2 : sTest.test = some t) (hb3 : t doc = .error ())
    (hsig : fw.signals = ss1 ++ sTest :: ss2) :
    evalSignal doc sAttr = evalSignal doc { sAttr with patterns := ps ++ qs } ∧
    evalSignal doc sTest = 0 ∧
    (getDetectedFrameworks doc (cat1 ++ fw :: cat2)).2
      = (getDetectedFrameworks doc
          (cat1 ++ { fw with signals := ss1 ++ ss2 } :: cat2)).2 := by
  have hzero : evalSignal doc sTest = 0 := by
    rw [evalSignal_test doc sTest hb1, hb2]
    simp [testScore, hb3]
  refine ⟨?_, hzero, ?_⟩
  · have h2 : ({ sAttr with patterns := ps ++ qs } : Signal).type = "attribute" := ha1
    rw [evalSignal_attribute doc sAttr ha1, evalSignal_attribute doc _ h2, ha2,
      sum_map_split]
    have hp0 : attrPatternScore doc sAttr.weight p = 0 := by
      simp [attrPatternScore, ha3]
    rw [hp0]
    exact Nat.add_zero _
  · have hconf : frameworkConfidence doc fw
        = frameworkConfidence doc { fw with signals := ss1 ++ ss2 } := by
      rw [frameworkConfidence_eq_sum, frameworkConfidence_eq_sum]
      show (fw.signals.map (evalSignal doc)).sum = ((ss1 ++ ss2).map (evalSignal doc)).sum
      rw [hsig, sum_map_split, hzero]
      exact Nat.add_zero _
    have e1 : (getDetectedFrameworks doc (cat1 ++ fw :: cat2)).2
        = detectedNames doc (cat1 ++ fw :: cat2) := by
      rw [getDetectedFrameworks_eq]
    have e2 : (getDetectedFrameworks doc
          (cat1 ++ { fw with signals := ss1 ++ ss2 } :: cat2)).2
        = detectedNames doc (cat1 ++ { fw with signals := ss1 ++ ss2 } :: cat2) := by
      rw [getDetectedFrameworks_eq]
    rw [e1, e2, detectedNames_append, detectedNames_append, detectedNames_cons,
      detectedNames_cons, hconf]

theorem errors_caught_locally_witness :
    evalSignal errDoc badAttrSignal
      = evalSignal errDoc { badAttrSignal with patterns := [] ++ [] } ∧
    evalSignal errDoc errTestSignal = 0 ∧
    (getDetectedFrameworks errDoc ([] ++ errFrameworkDef :: [reactDef])).2
      = (getDetectedFrameworks errDoc
          ([] ++ { errFrameworkDef with signals := [] ++ [] } :: [reactDef])).2 :=
  errors_caught_locally errDoc badAttrSignal errTestSignal [] [] "bad[" errTest
    [] [reactDef] errFrameworkDef [] [] rfl rfl rfl (Or.inl rfl) rfl rfl rfl

/-- C6: a `class` signal whose pattern matches two or more elements still
adds its weight exactly once for that pattern, not once per matching
element. -/
theorem class_signal_once_per_pattern (doc : Doc) (s : Signal)
    (ps qs : List String) (p : String)
    (htype : s.type = "class") (hsplit : s.patterns = ps ++ p :: qs)
    (hmulti : 2 ≤ doc.classStrings.countP
      (fun cls => strIncludes (toLowerCase cls) (toLowerCase p))) :
    evalSignal doc s = evalSignal doc { s with patterns := ps ++ qs } + s.weight := by
  have h2 : ({ s with patterns := ps ++ qs } : Signal).type = "class" := htype
  rw [evalSignal_class doc s htype, evalSignal_class doc _ h2, hsplit, sum_map_split]
  congr 1
  have hpos : 0 < doc.classStrings.countP
      (fun cls => strIncludes (toLowerCase cls) (toLowerCase p)) := by omega
  obtain ⟨a, ha, hpa⟩ := List.countP_pos_iff.mp hpos
  have hany : doc.classStrings.any
      (fun cls => strIncludes (toLowerCase cls) (toLowerCase p)) = true :=
    List.any_eq_true.mpr ⟨a, ha, hpa⟩
  simp [classPatternScore, hany]

theorem class_signal_once_per_pattern_witness :
    evalSignal multiClassDoc reactClassSignal
      = evalSignal multiClassDoc { reactClassSignal with patterns := [] ++ ["_react"] }
        + reactClassSignal.weight :=
  class_signal_once_per_pattern multiClassDoc reactClassSignal [] ["_react"] "react-"
    rfl rfl (by decide)

/-- C7: detection is idempotent.  Because every pass overwrites each
confidence accumulator with a freshly computed sum, running
`getDetectedFrameworks` a second time on the catalog state left by a first
run returns the same updated catalog and the same detected names. -/
theorem detection_idempotent (doc : Doc) (l : List Framework) :
    getDetectedFrameworks doc ((getDetectedFrameworks doc l).1)
      = getDetectedFrameworks doc l := by
  have hnames : ∀ m : List Framework,
      detectedNames doc (m.map (evalFramework doc)) = detectedNames doc m := by
    intro m
    induction m with
    | nil => rfl
    | cons fw m ih =>
      rw [List.map_cons, detectedNames_cons, detectedNames_cons, ih]
      rfl
  have hfst : (getDetectedFrameworks doc l).1 = l.map (evalFramework doc) := by
    rw [getDetectedFrameworks_eq]
  rw [hfst, getDetectedFrameworks_eq, getDetectedFrameworks_eq, List.map_map,
    hnames l]
  have hgg : l.map (evalFramework doc ∘ evalFramework doc) = l.map (evalFramework doc) :=
    List.map_congr_left (fun fw _ => rfl)
  rw [hgg]

/-- C9: on any document where `window.React` is truthy and some script src
contains `react.min.js` (case-insensitively), the built-in React entry
(global signal weight 3, file signal weight 4, minConfidence 4) accumulates
confidence at least 7, and `React` is in the returned JS-framework
sequence whenever the JS family is enabled. -/
theorem react_scenario (doc : Doc) (options : DetectionOptions)
    (hg : doc.globals "React" = true)
    (hs : doc.scriptSrcs.any
      (fun src => strIncludes (toLowerCase src) (toLowerCase "react.min.js")) = true)
    (hopt : options.jsFrameworks = true) :
    7 ≤ frameworkConfidence doc reactDef ∧
    "React" ∈ (analyzePageFrameworks options doc).jsFrameworks := by
  have hG : 3 ≤ evalSignal doc
      { type := "global",
        patterns := ["React", "ReactDOM", "__REACT_DEVTOOLS_GLOBAL_HOOK__"],
        weight := 3 } := by
    rw [evalSignal_global doc _ rfl]
    simp [globalPatternScore, hg]
  have hF : 4 ≤ evalSignal doc
      { type := "file", patterns := ["react.js", "react.min.js", "react-dom"],
        weight := 4 } := by
    rw [evalSignal_file doc _ rfl]
    have hmid : filePatternScore doc 4 "react.min.js" = 4 := by
      simp [filePatternScore, hs]
    simp only [List.map_cons, List.map_nil, List.sum_cons, List.sum_nil, hmid]
    omega
  have hconf : 7 ≤ frameworkConfidence doc reactDef := by
    rw [frameworkConfidence_eq_sum]
    simp only [reactDef, List.map_cons, List.map_nil, List.sum_cons, List.sum_nil]
    omega
  have hdet : "React" ∈ detectedNames doc FRAMEWORK_DETECTION_js := by
    rw [show FRAMEWORK_DETECTION_js = reactDef ::
      [angularDef, vueDef, svelteDef, jqueryDef, alpineDef, nextDef, nuxtDef, emberDef]
      from rfl, detectedNames_cons]
    rw [if_pos (le_trans (show reactDef.minConfidence ≤ 7 by decide) hconf)]
    exact List.mem_append_left _ (by decide)
  have hne : (detectedNames doc FRAMEWORK_DETECTION_js).length ≠ 0 := by
    intro h
    rw [List.length_eq_zero] at h
    simp [h] at hdet
  have hfam : detectFamily doc FRAMEWORK_DETECTION_js
      = detectedNames doc FRAMEWORK_DETECTION_js := by
    have hsnd : (getDetectedFrameworks doc FRAMEWORK_DETECTION_js).2
        = detectedNames doc FRAMEWORK_DETECTION_js := by
      rw [getDetectedFrameworks_eq]
    unfold detectFamily
    rw [hsnd]
    simp [hne]
  refine ⟨hconf, ?_⟩
  have hjs : (analyzePageFrameworks options doc).jsFrameworks
      = detectFamily doc FRAMEWORK_DETECTION_js := by
    simp [analyzePageFrameworks, hopt]
  rw [hjs, hfam]
  exact hdet

theorem react_scenario_witness :
    7 ≤ frameworkConfidence reactDoc reactDef ∧
    "React" ∈ (analyzePageFrameworks jsOptions reactDoc).jsFrameworks :=
  react_scenario reactDoc jsOptions (by decide) (by decide) rfl

/-- C10: a family disabled in the options yields the empty sequence, not
the sentinel: the sentinel substitution applies only to a family that was
actually evaluated. -/
theorem disabled_family_empty (options : DetectionOptions) (doc : Doc) :
    (options.jsFrameworks = false →
      (analyzePageFrameworks options doc).jsFrameworks = []) ∧
    (options.cssFrameworks = false →
      (analyzePageFrameworks options doc).cssFrameworks = []) := by
  constructor <;> intro h <;> simp [analyzePageFrameworks, h]

theorem disabled_family_empty_witness :
    (analyzePageFrameworks offOptions emptyDoc).jsFrameworks = [] ∧
    (analyzePageFrameworks offOptions emptyDoc).cssFrameworks = [] :=
  ⟨(disabled_family_empty offOptions emptyDoc).1 rfl,
   (disabled_family_empty offOptions emptyDoc).2 rfl⟩

theorem dbgFold_aux (fs : String → Nat) (ff : String → Bool)
    (ft : String → List String) (l : List String) (a : Nat) (b : Bool)
    (c : List String) :
    l.foldl (fun acc p => (acc.1 + fs p, acc.2.1 || ff p, acc.2.2 ++ ft p)) (a, b, c)
      = (a + (l.map fs).sum, b || l.any ff, c ++ (l.map ft).flatten) := by
  induction l generalizing a b c with
  | nil => simp
  | cons p l ih =>
    simp [List.foldl_cons, ih, Nat.add_assoc, Bool.or_assoc, List.append_assoc]

theorem dbgFold_eq (fs : String → Nat) (ff : String → Bool)
    (ft : String → List String) (l : List String) :
    dbgFold fs ff ft l = ((l.map fs).sum, l.any ff, (l.map ft).flatten) := by
  unfold dbgFold
  simpa using dbgFold_aux fs ff ft l 0 false []

theorem join_map_nil {α β : Type} (l : List α) :
    (l.map (fun _ => ([] : List β))).flatten = [] := by
  induction l with
  | nil => rfl
  | cons x l ih => simp [ih]

theorem evalSignalDbg_fst (dbg : Bool) (doc : Doc) (s : Signal) :
    (evalSignalDbg dbg doc s).1 = evalSignal doc s := by
  unfold evalSignalDbg
  split_ifs with h1 h2 h3 h4 h5
  · rw [evalSignal_global doc s h1]; simp [dbgFold_eq]
  · rw [evalSignal_file doc s h2]; simp [dbgFold_eq]
  · rw [evalSignal_attribute doc s h3]; simp [dbgFold_eq]
  · rw [evalSignal_class doc s h4]; simp [dbgFold_eq]
  · rw [evalSignal_test doc s h5]
  · have hd : ¬ s.type = "dom" := fun h => h5 (Or.inl h)
    have hr : ¬ s.type = "styleRule" := fun h => h5 (Or.inr (Or.inl h))
    have hm : ¬ s.type = "multiClass" := fun h => h5 (Or.inr (Or.inr h))
    simp [evalSignal, h1, h2, h3, h4, hd, hr, hm]

theorem evalSignalDbg_trace_off (doc : Doc) (s : Signal) :
    (evalSignalDbg false doc s).2.2 = [] := by
  unfold evalSignalDbg
  have hfile : ∀ p ∈ s.patterns, filePatternTrace false doc p = (fun _ => ([] : List String)) p :=
    fun p _ => rfl
  have hattr : ∀ p ∈ s.patterns, attrPatternTrace false doc p = (fun _ => ([] : List String)) p :=
    fun p _ => rfl
  split_ifs <;>
    simp [dbgFold_eq, List.map_congr_left hfile, List.map_congr_left hattr, join_map_nil]

theorem fwFold_fst (dbg : Bool) (doc : Doc) (sigs : List Signal)
    (a : Nat) (b : List (String × Nat)) (c : List String) :
    (sigs.foldl (fwStep dbg doc) (a, b, c)).1 = a + (sigs.map (evalSignal doc)).sum := by
  induction sigs generalizing a b c with
  | nil => simp
  | cons s sigs ih =>
    simp only [List.foldl_cons, fwStep, evalSignalDbg_fst, List.map_cons, List.sum_cons]
    rw [ih]
    omega

theorem fwFold_trace_off (doc : Doc) (sigs : List Signal)
    (a : Nat) (b : List (String × Nat)) (c : List String) :
    (sigs.foldl (fwStep false doc) (a, b, c)).2.2 = c := by
  induction sigs generalizing a b c with
  | nil => rfl
  | cons s sigs ih =>
    simp only [List.foldl_cons, fwStep, evalSignalDbg_trace_off, List.append_nil]
    exact ih _ _ _

theorem evalFrameworkDbg_fst (dbg : Bool) (doc : Doc) (fw : Framework) :
    (evalFrameworkDbg dbg doc fw).1 = evalFramework doc fw := by
  simp [evalFrameworkDbg, evalFramework, fwFold_fst, frameworkConfidence_eq_sum]

theorem evalFrameworkDbg_trace_off (doc : Doc) (fw : Framework) :
    (evalFrameworkDbg false doc fw).2 = [] := by
  simp [evalFrameworkDbg, fwFold_trace_off]

theorem gdfDbg_aux (dbg : Bool) (doc : Doc) (l : List Framework)
    (a : List Framework) (b : List String) (c : List String) :
    (l.foldl (catStep dbg doc) ((a, b), c)).1
      = (a ++ l.map (evalFramework doc), b ++ detectedNames doc l) := by
  induction l generalizing a b c with
  | nil => simp [detectedNames]
  | cons fw l ih =>
    have hstep : catStep dbg doc ((a, b), c) fw
        = ((a ++ [evalFramework doc fw],
            if fw.minConfidence ≤ frameworkConfidence doc fw
            then b ++ [fw.name] else b),
           c ++ (evalFrameworkDbg dbg doc fw).2) := by
      simp [catStep, evalFrameworkDbg_fst, evalFramework]
    rw [List.foldl_cons, hstep, ih, List.map_cons, detectedNames_cons]
    by_cases h : fw.minConfidence ≤ frameworkConfidence doc fw <;> simp [h]

theorem getDetectedFrameworksDbg_fst (dbg : Bool) (doc : Doc) (l : List Framework) :
    (getDetectedFrameworksDbg dbg doc l).1 = getDetectedFrameworks doc l := by
  rw [getDetectedFrameworks_eq]
  unfold getDetectedFrameworksDbg
  simpa using gdfDbg_aux dbg doc l [] [] []

theorem gdfDbg_trace_aux (doc : Doc) (l : List Framework)
    (a : List Framework) (b : List String) (c : List String) :
    (l.foldl (catStep false doc) ((a, b), c)).2 = c := by
  induction l generalizing a b c with
  | nil => rfl
  | cons fw l ih =>
    have hstep : (catStep false doc ((a, b), c) fw).2 = c := by
      simp [catStep, evalFrameworkDbg_trace_off]
    rw [List.foldl_cons]
    rcases hs2 : catStep false doc ((a, b), c) fw with ⟨⟨a2, b2⟩, c2⟩
    have hc2 : c2 = c := by rw [← hstep, hs2]
    rw [hc2] at *
    exact ih a2 b2 c

theorem getDetectedFrameworksDbg_trace_off (doc : Doc) (l : List Framework) :
    (getDetectedFrameworksDbg false doc l).2 = [] := by
  unfold getDetectedFrameworksDbg
  exact gdfDbg_trace_aux doc l [] [] []

theorem detectFamilyDbg_fst (dbg : Bool) (doc : Doc) (catalog : List Framework) :
    (detectFamilyDbg dbg doc catalog).1 = detectFamily doc catalog := by
  simp [detectFamilyDbg, detectFamily, getDetectedFrameworksDbg_fst]

theorem detectFamilyDbg_trace_off (doc : Doc) (catalog : List Framework) :
    (detectFamilyDbg false doc catalog).2 = [] := by
  simp [detectFamilyDbg, getDetectedFrameworksDbg_trace_off]

/-- C8: debug-mode noninterference.  The returned DetectionResult is the
same with debugMode true and false (and equals the uninstrumented
`analyzePageFrameworks`), and with debugMode false no trace output is
produced. -/
theorem debug_mode_noninterference (options : DetectionOptions) (doc : Doc)
    (b : Bool) :
    (analyzePageDbg { options with debugMode := true } doc).1
      = (analyzePageDbg { options with debugMode := false } doc).1 ∧
    (analyzePageDbg { options with debugMode := b } doc).1
      = analyzePageFrameworks options doc ∧
    (analyzePageDbg { options with debugMode := false } doc).2 = [] := by
  have key : ∀ b : Bool, (analyzePageDbg { options with debugMode := b } doc).1
      = analyzePageFrameworks options doc := by
    intro b
    by_cases hj : options.jsFrameworks <;> by_cases hc : options.cssFrameworks <;>
      simp [analyzePageDbg, analyzePageFrameworks, detectFamilyDbg_fst, hj, hc]
  refine ⟨by rw [key true, key false], key b, ?_⟩
  by_cases hj : options.jsFrameworks <;> by_cases hc : options.cssFrameworks <;>
    simp [analyzePageDbg, hj, hc, detectFamilyDbg_trace_off]

end CESite
